import Mathlib

/-!
Shallow embedding of the pickupscan service (FastAPI + SQLModel) and proofs
about its request handlers.

Embedded source files:
- `app/db/models.py` : the four tables (User, Region, Pharmacy, ScanEvent)
  become Lean structures; the relational store becomes lists of rows.
- `app/api/public.py` : `api_scan` (the POST /api/scan handler).
- `app/api/admin_auth.py` : `admin_login` (POST /admin/login) and
  `admin_logout` (GET /admin/logout).
- `app/core/deps.py` : `get_current_admin` (the session-gated admin
  dependency).

Modelling conventions:
- SQLModel `select(...).where(...).first()` and primary-key `session.get`
  become `List.find?` over the row lists.
- Python truthiness is modelled explicitly: `if not pharmacy_public_id`
  is false for `None` and for the empty string; `if pharmacy.region_id`
  is false for `None` and for the integer 0; `if not user_id` in
  `get_current_admin` is true for `None` and for 0.
- The bcrypt verifier (`app/core/security.py`, passlib) is an external
  one-way function; `admin_login` is parameterised over an arbitrary
  `verify : String → String → Bool`.
- The signed session cookie holds at most the `user_id` key in this app,
  so a session state is `Option Nat`; `request.session.clear()` resets it.
- `session.add / commit / refresh` on a new ScanEvent append one row whose
  id the database assigns; ids are modelled as `length + 1`.
- `datetime.utcnow` is a timestamp passed in by the caller (`now`).
- HTTP responses are records of status code plus the observable body
  fields the handlers set.
-/

namespace PickupScan

/-- Row of the `user` table (`app/db/models.py`, class User). -/
structure User where
  id : Nat
  login : String
  password_hash : String
  is_active : Bool
  is_superuser : Bool
deriving Repr, DecidableEq

/-- Row of the `region` table (`app/db/models.py`, class Region). -/
structure Region where
  id : Nat
  name : String
  code : String
  public_id : String
  is_active : Bool
deriving Repr, DecidableEq

/-- Row of the `pharmacy` table (`app/db/models.py`, class Pharmacy).
`region_id` is the nullable foreign key to `region.id`. -/
structure Pharmacy where
  id : Nat
  name : String
  address : Option String
  public_id : String
  is_active : Bool
  region_id : Option Nat
deriving Repr, DecidableEq

/-- Row of the `scanevent` table (`app/db/models.py`, class ScanEvent). -/
structure ScanEvent where
  id : Nat
  scanned_at : Nat
  pharmacy_id : Nat
  region_id : Option Nat
  latitude : Option Float
  longitude : Option Float
  raw_qr : Option String
  user_agent : Option String
  ip_address : Option String
deriving Repr

/-- The relational data store: one list of rows per table. -/
structure Store where
  users : List User
  regions : List Region
  pharmacies : List Pharmacy
  scan_events : List ScanEvent
deriving Repr

/-- JSON body of the POST /api/scan request (`app/api/public.py`):
all four fields are read with `data.get(...)`, hence optional. -/
structure ScanPayload where
  pharmacy_public_id : Option String
  latitude : Option Float
  longitude : Option Float
  raw_qr : Option String

/-- Request metadata read by `api_scan`: `request.client.host` (absent when
`request.client` is None) and the user-agent header. -/
structure RequestInfo where
  client_host : Option String
  user_agent : Option String

/-- Observable response of `api_scan`: HTTP status plus the JSON body
fields (`ok`, `error`, `scan_id`). -/
structure ScanResponse where
  status_code : Nat
  ok : Bool
  error : Option String
  scan_id : Option Nat
deriving Repr, DecidableEq

/-- The 400 response for a missing or empty `pharmacy_public_id`. -/
def missingFieldResponse : ScanResponse :=
  { status_code := 400, ok := false
    error := some ("Missing pharmacy_public_id"), scan_id := none }

/-- The 400 response for a `pharmacy_public_id` matching no pharmacy. -/
def unknownPharmacyResponse : ScanResponse :=
  { status_code := 400, ok := false
    error := some ("Unknown pharmacy"), scan_id := none }

/-- `select(Pharmacy).where(Pharmacy.public_id == pid)).first()`. -/
def lookupPharmacy (s : Store) (pid : String) : Option Pharmacy :=
  s.pharmacies.find? (fun p => p.public_id == pid)

/-- `session.get(Region, rid)`: primary-key lookup. -/
def getRegion (s : Store) (rid : Nat) : Option Region :=
  s.regions.find? (fun r => r.id == rid)

/-- `session.get(Region, pharmacy.region_id) if pharmacy.region_id else None`.
Python truthiness: a region_id of `None` or `0` skips the lookup. -/
def resolveRegion (s : Store) (ph : Pharmacy) : Option Region :=
  match ph.region_id with
  | none => none
  | some rid => if rid == 0 then none else getRegion s rid

/-- Database id the insert assigns to the new ScanEvent row. -/
def nextScanId (s : Store) : Nat := s.scan_events.length + 1

/-- The ScanEvent row `api_scan` constructs for a found pharmacy:
`region.id if region else None`, payload fields verbatim, request
metadata verbatim. -/
def mkScan (s : Store) (ph : Pharmacy) (payload : ScanPayload)
    (req : RequestInfo) (now : Nat) : ScanEvent :=
  { id := nextScanId s
    scanned_at := now
    pharmacy_id := ph.id
    region_id := (resolveRegion s ph).map (fun r => r.id)
    latitude := payload.latitude
    longitude := payload.longitude
    raw_qr := payload.raw_qr
    user_agent := req.user_agent
    ip_address := req.client_host }

/-- `api_scan` (`app/api/public.py`): the POST /api/scan handler.
Returns the response and the store after the request. -/
def api_scan (store : Store) (payload : ScanPayload) (req : RequestInfo)
    (now : Nat) : ScanResponse × Store :=
  match payload.pharmacy_public_id with
  | none => (missingFieldResponse, store)
  | some pid =>
    if pid.isEmpty then (missingFieldResponse, store)
    else
      match lookupPharmacy store pid with
      | none => (unknownPharmacyResponse, store)
      | some pharmacy =>
        let scan := mkScan store pharmacy payload req now
        ({ status_code := 200, ok := true, error := none
           scan_id := some scan.id },
         { store with scan_events := store.scan_events ++ [scan] })

/-- Session cookie state: the only key this app ever stores is `user_id`. -/
structure SessionState where
  user_id : Option Nat
deriving Repr, DecidableEq

/-- Observable response of the admin auth handlers: HTTP status, the
template error message (if the login form is re-rendered), and the
redirect target (if a RedirectResponse is returned). -/
structure AuthResponse where
  status_code : Nat
  error : Option String
  redirect_to : Option String
deriving Repr, DecidableEq

/-- The 400 login-form re-render with the generic error message. -/
def invalidCredentialsResponse : AuthResponse :=
  { status_code := 400, error := some ("Invalid credentials")
    redirect_to := none }

/-- The 303 redirect to /admin on successful login. -/
def adminRedirectResponse : AuthResponse :=
  { status_code := 303, error := none, redirect_to := some ("/admin") }

/-- The 303 redirect to /admin/login after logout. -/
def logoutRedirectResponse : AuthResponse :=
  { status_code := 303, error := none, redirect_to := some ("/admin/login") }

/-- `select(User).where(User.login == login)).first()`. -/
def lookupUserByLogin (s : Store) (l : String) : Option User :=
  s.users.find? (fun u => u.login == l)

/-- `session.get(User, user_id)`: primary-key lookup. -/
def lookupUserById (s : Store) (uid : Nat) : Option User :=
  s.users.find? (fun u => u.id == uid)

/-- `admin_login` (`app/api/admin_auth.py`): the POST /admin/login handler,
parameterised over the external bcrypt verifier. Returns the response,
the session after the request, and the store after the request. -/
def admin_login (verify : String → String → Bool) (store : Store)
    (l password : String) (sess : SessionState) :
    AuthResponse × SessionState × Store :=
  match lookupUserByLogin store l with
  | none => (invalidCredentialsResponse, sess, store)
  | some user =>
    if !(verify password user.password_hash) || !user.is_superuser then
      (invalidCredentialsResponse, sess, store)
    else
      (adminRedirectResponse, { user_id := some user.id }, store)

/-- `admin_logout` (`app/api/admin_auth.py`): clears the session whatever
it was and redirects to /admin/login. The handler has no database
dependency, so it takes no store. -/
def admin_logout (_sess : SessionState) : AuthResponse × SessionState :=
  (logoutRedirectResponse, { user_id := none })

/-- Result of the `get_current_admin` dependency: either the HTTP 401
exception or the authenticated user. -/
inductive AdminResult where
  | unauthenticated
  | ok (user : User)
deriving Repr, DecidableEq

/-- `get_current_admin` (`app/core/deps.py`). Python truthiness:
`if not user_id` is true for a missing key and for the integer 0. -/
def get_current_admin (store : Store) (sess : SessionState) : AdminResult :=
  match sess.user_id with
  | none => AdminResult.unauthenticated
  | some uid =>
    if uid == 0 then AdminResult.unauthenticated
    else
      match lookupUserById store uid with
      | none => AdminResult.unauthenticated
      | some user =>
        if !user.is_active || !user.is_superuser then
          AdminResult.unauthenticated
        else AdminResult.ok user

/-!
Concrete fixtures used by witness theorems.
-/

/-- Fixture: an active superuser, id 1. -/
def wAdmin : User :=
  { id := 1, login := "root", password_hash := "H1"
    is_active := true, is_superuser := true }

/-- Fixture: an inactive superuser, id 2; its stored hash equals its
password under the fixture verifier `wVerify`. -/
def wSleeper : User :=
  { id := 2, login := "bob", password_hash := "pw2"
    is_active := false, is_superuser := true }

/-- Fixture: an active non-superuser, id 3. -/
def wPlainUser : User :=
  { id := 3, login := "carol", password_hash := "pw3"
    is_active := true, is_superuser := false }

/-- Fixture verifier standing in for bcrypt: accepts exactly the stored
hash as the password. -/
def wVerify (password stored : String) : Bool := password == stored

/-- Fixture: an active region, id 4. -/
def wRegion : Region :=
  { id := 4, name := "NRW West", code := "NW1"
    public_id := "regtok", is_active := true }

/-- Fixture: pharmacy linked to `wRegion`. -/
def wPharmacy : Pharmacy :=
  { id := 7, name := "P1", address := none
    public_id := "abc123", is_active := true, region_id := some 4 }

/-- Fixture: pharmacy whose region reference points at a missing row. -/
def wOrphanPharmacy : Pharmacy :=
  { id := 8, name := "P2", address := some ("Elm St 1")
    public_id := "def456", is_active := true, region_id := some 99 }

/-- Fixture: inactive pharmacy linked to an inactive region `wColdRegion`. -/
def wColdPharmacy : Pharmacy :=
  { id := 9, name := "P3", address := none
    public_id := "ghi789", is_active := false, region_id := some 5 }

/-- Fixture: an inactive region, id 5. -/
def wColdRegion : Region :=
  { id := 5, name := "Old North", code := "ON1"
    public_id := "coldtok", is_active := false }

/-- Fixture store holding all fixture rows and no scan events. -/
def wStore : Store :=
  { users := [wAdmin, wSleeper, wPlainUser]
    regions := [wRegion, wColdRegion]
    pharmacies := [wPharmacy, wOrphanPharmacy, wColdPharmacy]
    scan_events := [] }

/-- Fixture scan payload naming `wPharmacy` (no coordinates, so witness
equalities stay decidable-friendly). -/
def wPayload : ScanPayload :=
  { pharmacy_public_id := some ("abc123"), latitude := none
    longitude := none, raw_qr := some ("QR-TEXT") }

/-- Fixture request metadata. -/
def wReq : RequestInfo :=
  { client_host := some ("10.0.0.5"), user_agent := some ("Mozilla") }

/-!
Shared evaluation lemma: the success branch of `api_scan`.
-/

/-- If the public id is present, non-empty and matches a pharmacy, then
`api_scan` returns 200 with the new id and appends exactly `mkScan`. -/
theorem api_scan_found (store : Store) (payload : ScanPayload)
    (req : RequestInfo) (now : Nat) (pid : String) (ph : Pharmacy)
    (hpid : payload.pharmacy_public_id = some pid)
    (hne : pid.isEmpty = false)
    (hph : lookupPharmacy store pid = some ph) :
    api_scan store payload req now =
      ({ status_code := 200, ok := true, error := none
         scan_id := some (nextScanId store) },
       { store with scan_events :=
          store.scan_events ++ [mkScan store ph payload req now] }) := by
  simp [api_scan, hpid, hne, hph, mkScan]

/-!
Claim theorems.
-/

/-- Claim C1: for every scan request whose pharmacy_public_id matches an
existing pharmacy linked (by a nonzero region id, as primary keys are)
to an existing active region, and for arbitrary latitude, longitude and
raw_qr values, `api_scan` returns ok with the new event id and appends a
ScanEvent holding the pharmacy's id, that region's id, the submitted
coordinates and raw QR verbatim, the user-agent header and the source
address. -/
theorem api_scan_success_active_region (store : Store)
    (payload : ScanPayload) (req : RequestInfo) (now : Nat) (pid : String)
    (ph : Pharmacy) (rid : Nat) (r : Region)
    (hpid : payload.pharmacy_public_id = some pid)
    (hne : pid.isEmpty = false)
    (hph : lookupPharmacy store pid = some ph)
    (hrid : ph.region_id = some rid)
    (hnz : rid ≠ 0)
    (hr : getRegion store rid = some r)
    (_hact : r.is_active = true) :
    api_scan store payload req now =
      ({ status_code := 200, ok := true, error := none
         scan_id := some (nextScanId store) },
       { store with scan_events := store.scan_events ++
          [{ id := nextScanId store, scanned_at := now
             pharmacy_id := ph.id, region_id := some r.id
             latitude := payload.latitude, longitude := payload.longitude
             raw_qr := payload.raw_qr, user_agent := req.user_agent
             ip_address := req.client_host }] }) := by
  rw [api_scan_found store payload req now pid ph hpid hne hph]
  simp [mkScan, resolveRegion, hrid, hnz, hr]

/-- Witness for C1 at the fixture store: scanning `wPharmacy` succeeds
with id 1 and stores region id 4. -/
theorem api_scan_success_active_region_witness :
    api_scan wStore wPayload wReq 17 =
      ({ status_code := 200, ok := true, error := none, scan_id := some 1 },
       { wStore with scan_events :=
          [{ id := 1, scanned_at := 17, pharmacy_id := 7, region_id := some 4
             latitude := none, longitude := none, raw_qr := some ("QR-TEXT")
             user_agent := some ("Mozilla"), ip_address := some ("10.0.0.5") }] }) := by
  rw [api_scan_success_active_region wStore wPayload wReq 17 "abc123"
    wPharmacy 4 wRegion rfl rfl (by decide) rfl (by decide) (by decide) rfl]
  rfl

/-- Claim C2: for a missing or empty pharmacy_public_id, `api_scan`
returns the 400 MissingField body and leaves the store untouched; since
this holds for every store whatsoever, the response is computed before
(and independently of) any pharmacy lookup, and no ScanEvent is created. -/
theorem api_scan_missing_field (store : Store) (payload : ScanPayload)
    (req : RequestInfo) (now : Nat)
    (h : payload.pharmacy_public_id = none
        ∨ payload.pharmacy_public_id = some ("")) :
    api_scan store payload req now = (missingFieldResponse, store) := by
  rcases h with h | h
  · simp [api_scan, h]
  · simp [api_scan, h]
    intro hc
    exact absurd hc (by decide)

/-- Witness for C2: the empty-object request on the fixture store. -/
theorem api_scan_missing_field_witness :
    api_scan wStore
      { pharmacy_public_id := none, latitude := none
        longitude := none, raw_qr := none } wReq 0 =
      (missingFieldResponse, wStore) :=
  api_scan_missing_field wStore
    { pharmacy_public_id := none, latitude := none
      longitude := none, raw_qr := none } wReq 0 (Or.inl rfl)

/-- Claim C3: for a non-empty pharmacy_public_id matching no pharmacy,
`api_scan` returns the 400 UnknownPharmacy body and the store is
returned unchanged — no ScanEvent row is created. -/
theorem api_scan_unknown_pharmacy (store : Store) (payload : ScanPayload)
    (req : RequestInfo) (now : Nat) (pid : String)
    (hpid : payload.pharmacy_public_id = some pid)
    (hne : pid.isEmpty = false)
    (hmiss : lookupPharmacy store pid = none) :
    api_scan store payload req now = (unknownPharmacyResponse, store) := by
  simp [api_scan, hpid, hne, hmiss]

/-- Witness for C3: the token "nosuch" matches no fixture pharmacy. -/
theorem api_scan_unknown_pharmacy_witness :
    api_scan wStore
      { pharmacy_public_id := some ("nosuch"), latitude := none
        longitude := none, raw_qr := none } wReq 0 =
      (unknownPharmacyResponse, wStore) :=
  api_scan_unknown_pharmacy wStore
    { pharmacy_public_id := some ("nosuch"), latitude := none
      longitude := none, raw_qr := none } wReq 0 "nosuch"
    rfl rfl (by decide)

/-- Claim C4: whether the login matches no user, or the password fails to
verify, or the user is not a superuser, `admin_login` returns the one
invalid-credentials 400 response with the session and store unchanged —
so the three failure causes are externally indistinguishable. -/
theorem admin_login_uniform_failure (verify : String → String → Bool)
    (store : Store) (l password : String) (sess : SessionState)
    (h : lookupUserByLogin store l = none
        ∨ (∃ u, lookupUserByLogin store l = some u
            ∧ verify password u.password_hash = false)
        ∨ (∃ u, lookupUserByLogin store l = some u
            ∧ verify password u.password_hash = true
            ∧ u.is_superuser = false)) :
    admin_login verify store l password sess =
      (invalidCredentialsResponse, sess, store) := by
  rcases h with h | ⟨u, hu, hv⟩ | ⟨u, hu, hv, hs⟩
  · simp [admin_login, h]
  · simp [admin_login, hu, hv]
  · simp [admin_login, hu, hv, hs]

/-- Witness for C4: the fixture non-superuser `wPlainUser` presents the
correct password yet gets the generic invalid-credentials response. -/
theorem admin_login_uniform_failure_witness :
    admin_login wVerify wStore "carol" "pw3" { user_id := none } =
      (invalidCredentialsResponse, { user_id := none }, wStore) :=
  admin_login_uniform_failure wVerify wStore "carol" "pw3"
    { user_id := none }
    (Or.inr (Or.inr ⟨wPlainUser, by decide, by decide, by decide⟩))

/-- Claim C5: on a store whose user ids are nonzero (as database serial
primary keys are), `get_current_admin` is unauthenticated exactly when
the session has no user id, or the referenced user does not exist, or is
inactive, or is not a superuser; in every other case it returns that
user. The nonzero-id hypothesis is needed because the handler reads the
session with Python truthiness, treating a stored id 0 as absent. -/
theorem get_current_admin_spec (store : Store) (sess : SessionState)
    (hwf : ∀ u ∈ store.users, u.id ≠ 0) :
    (get_current_admin store sess = AdminResult.unauthenticated ↔
      (sess.user_id = none
        ∨ ∃ uid, sess.user_id = some uid ∧
            (lookupUserById store uid = none
              ∨ ∃ u, lookupUserById store uid = some u
                  ∧ (u.is_active = false ∨ u.is_superuser = false))))
    ∧ (∀ uid u, sess.user_id = some uid →
        lookupUserById store uid = some u →
        u.is_active = true → u.is_superuser = true →
        get_current_admin store sess = AdminResult.ok u) := by
  constructor
  · constructor
    · intro hun
      cases hsess : sess.user_id with
      | none => exact Or.inl rfl
      | some uid =>
        refine Or.inr ⟨uid, rfl, ?_⟩
        by_cases hz : uid = 0
        · subst hz
          left
          rw [lookupUserById, List.find?_eq_none]
          intro u hu
          simpa using hwf u hu
        · cases hu : lookupUserById store uid with
          | none => exact Or.inl rfl
          | some u =>
            refine Or.inr ⟨u, rfl, ?_⟩
            cases hact : u.is_active with
            | false => exact Or.inl rfl
            | true =>
              cases hsup : u.is_superuser with
              | false => exact Or.inr rfl
              | true =>
                exfalso
                rw [get_current_admin, hsess] at hun
                simp [hz, hu, hact, hsup] at hun
    · intro h
      rcases h with hsess | ⟨uid, hsess, hrest⟩
      · simp [get_current_admin, hsess]
      · by_cases hz : uid = 0
        · subst hz
          simp [get_current_admin, hsess]
        · rcases hrest with hu | ⟨u, hu, hflag⟩
          · simp [get_current_admin, hsess, hz, hu]
          · rcases hflag with hf | hf <;>
              simp [get_current_admin, hsess, hz, hu, hf]
  · intro uid u hsess hu hact hsup
    have hu' : store.users.find? (fun x => x.id == uid) = some u := hu
    have hid : u.id = uid := by simpa using List.find?_some hu'
    have hnz : uid ≠ 0 := by
      intro h0
      exact hwf u (List.mem_of_find?_eq_some hu') (hid.trans h0)
    simp [get_current_admin, hsess, hnz, hu, hact, hsup]

/-- Witness for C5: on the fixture store (all user ids nonzero), a session
holding id 1 authenticates as `wAdmin`, and after instantiating the iff
at a session holding the unknown id 42, the handler is unauthenticated. -/
theorem get_current_admin_spec_witness :
    get_current_admin wStore { user_id := some 1 } = AdminResult.ok wAdmin
    ∧ get_current_admin wStore { user_id := some 42 } =
        AdminResult.unauthenticated := by
  constructor
  · exact (get_current_admin_spec wStore { user_id := some 1 }
      (by decide)).2 1 wAdmin rfl (by decide) rfl rfl
  · exact (get_current_admin_spec wStore { user_id := some 42 }
      (by decide)).1.mpr (Or.inr ⟨42, rfl, Or.inl (by decide)⟩)

/-- Claim C6: `admin_logout` clears the session to the empty state and
returns the 303 redirect (it has no error outcome), and on the session
it produces `get_current_admin` is unauthenticated for every store. -/
theorem admin_logout_spec (sess : SessionState) (store : Store) :
    admin_logout sess = (logoutRedirectResponse, { user_id := none })
    ∧ get_current_admin store (admin_logout sess).2 =
        AdminResult.unauthenticated :=
  ⟨rfl, rfl⟩

/-- Claim C7: when the matched pharmacy's region reference is set but the
referenced region row is missing, `api_scan` does not fail: it succeeds
and stores the ScanEvent with a null region_id; when the reference is
absent, region_id is likewise null. -/
theorem api_scan_region_row_missing (store : Store) (payload : ScanPayload)
    (req : RequestInfo) (now : Nat) (pid : String) (ph : Pharmacy)
    (hpid : payload.pharmacy_public_id = some pid)
    (hne : pid.isEmpty = false)
    (hph : lookupPharmacy store pid = some ph)
    (hreg : ph.region_id = none
        ∨ ∃ rid, ph.region_id = some rid ∧ getRegion store rid = none) :
    api_scan store payload req now =
      ({ status_code := 200, ok := true, error := none
         scan_id := some (nextScanId store) },
       { store with scan_events := store.scan_events ++
          [{ id := nextScanId store, scanned_at := now
             pharmacy_id := ph.id, region_id := none
             latitude := payload.latitude, longitude := payload.longitude
             raw_qr := payload.raw_qr, user_agent := req.user_agent
             ip_address := req.client_host }] }) := by
  rw [api_scan_found store payload req now pid ph hpid hne hph]
  rcases hreg with h | ⟨rid, hrid, hr⟩
  · simp [mkScan, resolveRegion, h]
  · by_cases hz : rid = 0
    · subst hz
      simp [mkScan, resolveRegion, hrid]
    · simp [mkScan, resolveRegion, hrid, hz, hr]

/-- Witness for C7: `wOrphanPharmacy` references region 99, which has no
row in the fixture store; the scan succeeds with a null region id. -/
theorem api_scan_region_row_missing_witness :
    api_scan wStore
      { pharmacy_public_id := some ("def456"), latitude := none
        longitude := none, raw_qr := none } wReq 3 =
      ({ status_code := 200, ok := true, error := none, scan_id := some 1 },
       { wStore with scan_events :=
          [{ id := 1, scanned_at := 3, pharmacy_id := 8, region_id := none
             latitude := none, longitude := none, raw_qr := none
             user_agent := some ("Mozilla"), ip_address := some ("10.0.0.5") }] }) := by
  rw [api_scan_region_row_missing wStore
    { pharmacy_public_id := some ("def456"), latitude := none
      longitude := none, raw_qr := none } wReq 3 "def456" wOrphanPharmacy
    rfl rfl (by decide) (Or.inr ⟨99, rfl, by decide⟩)]
  rfl

/-- Claim C8: no pre-existing row is modified by the specified handlers:
the users, regions and pharmacies tables (hence every stored public_id)
come out of `api_scan` exactly as they went in and its scan_events table
is the old one with some rows appended, and `admin_login` returns the
store untouched. `admin_logout` takes no store at all (the handler has
no database dependency), so it performs no write. -/
theorem writes_in_scope_are_inserts (store : Store) (payload : ScanPayload)
    (req : RequestInfo) (now : Nat) (verify : String → String → Bool)
    (l password : String) (sess : SessionState) :
    ((api_scan store payload req now).2.users = store.users
      ∧ (api_scan store payload req now).2.regions = store.regions
      ∧ (api_scan store payload req now).2.pharmacies = store.pharmacies
      ∧ ∃ inserted, (api_scan store payload req now).2.scan_events
          = store.scan_events ++ inserted)
    ∧ (admin_login verify store l password sess).2.2 = store := by
  constructor
  · rw [api_scan]
    split
    · exact ⟨rfl, rfl, rfl, [], by simp⟩
    · split
      · exact ⟨rfl, rfl, rfl, [], by simp⟩
      · split
        · exact ⟨rfl, rfl, rfl, [], by simp⟩
        · exact ⟨rfl, rfl, rfl, _, rfl⟩
  · rw [admin_login]
    split
    · rfl
    · split
      · rfl
      · rfl

/-- Claim C9: `admin_login` never consults is_active: a user whose
password verifies and who is a superuser but is inactive still logs in,
the session receiving the user's id; that user is then rejected by
`get_current_admin` on the next protected request, which re-checks
is_active. (The id lookup hypothesis says the user is the row its own
primary key finds, and ids are nonzero, as for serial keys.) -/
theorem admin_login_ignores_is_active (verify : String → String → Bool)
    (store : Store) (l password : String) (sess : SessionState) (u : User)
    (hu : lookupUserByLogin store l = some u)
    (hv : verify password u.password_hash = true)
    (hsup : u.is_superuser = true)
    (hina : u.is_active = false)
    (hid : lookupUserById store u.id = some u)
    (hnz : u.id ≠ 0) :
    admin_login verify store l password sess =
      (adminRedirectResponse, { user_id := some u.id }, store)
    ∧ get_current_admin store { user_id := some u.id } =
        AdminResult.unauthenticated := by
  constructor
  · simp [admin_login, hu, hv, hsup]
  · simp [get_current_admin, hnz, hid, hina]

/-- Witness for C9: the inactive superuser `wSleeper` logs in with the
correct password, yet the session it obtains does not authenticate. -/
theorem admin_login_ignores_is_active_witness :
    admin_login wVerify wStore "bob" "pw2" { user_id := none } =
      (adminRedirectResponse, { user_id := some 2 }, wStore)
    ∧ get_current_admin wStore { user_id := some 2 } =
        AdminResult.unauthenticated :=
  admin_login_ignores_is_active wVerify wStore "bob" "pw2"
    { user_id := none } wSleeper (by decide) (by decide) rfl rfl
    (by decide) (by decide)

/-- Store with every pharmacy's is_active transformed by `f` and every
region's is_active transformed by `g`; all other columns untouched. -/
def mapActivity (f g : Bool → Bool) (s : Store) : Store :=
  { s with
    pharmacies := s.pharmacies.map (fun p => { p with is_active := f p.is_active })
    regions := s.regions.map (fun r => { r with is_active := g r.is_active }) }

/-- Pharmacy lookup is blind to the is_active column. -/
theorem lookupPharmacy_mapActivity (f g : Bool → Bool) (s : Store)
    (pid : String) :
    lookupPharmacy (mapActivity f g s) pid =
      (lookupPharmacy s pid).map (fun p => { p with is_active := f p.is_active }) := by
  rw [lookupPharmacy, lookupPharmacy, mapActivity, List.find?_map]
  rfl

/-- Region lookup is blind to the is_active column. -/
theorem getRegion_mapActivity (f g : Bool → Bool) (s : Store) (rid : Nat) :
    getRegion (mapActivity f g s) rid =
      (getRegion s rid).map (fun r => { r with is_active := g r.is_active }) := by
  rw [getRegion, getRegion, mapActivity, List.find?_map]
  rfl

/-- Region resolution for a pharmacy is blind to the is_active columns. -/
theorem resolveRegion_mapActivity (f g : Bool → Bool) (s : Store)
    (ph : Pharmacy) :
    resolveRegion (mapActivity f g s) { ph with is_active := f ph.is_active } =
      (resolveRegion s ph).map (fun r => { r with is_active := g r.is_active }) := by
  cases hr : ph.region_id with
  | none => simp [resolveRegion, hr]
  | some rid =>
    by_cases hz : (rid == 0) = true
    · simp [resolveRegion, hr, hz]
    · simp only [resolveRegion, hr]
      rw [if_neg hz, if_neg hz]
      exact getRegion_mapActivity f g s rid

/-- The constructed ScanEvent row is identical over the activity-mapped
store: none of its fields reads an is_active column. -/
theorem mkScan_mapActivity (f g : Bool → Bool) (s : Store) (ph : Pharmacy)
    (payload : ScanPayload) (req : RequestInfo) (now : Nat) :
    mkScan (mapActivity f g s) { ph with is_active := f ph.is_active }
        payload req now = mkScan s ph payload req now := by
  simp only [mkScan]
  rw [resolveRegion_mapActivity]
  cases resolveRegion s ph <;> rfl

/-- `api_scan` commutes with transforming the is_active columns: the
response is unchanged and the resulting store is the activity-mapped
image of the original run's resulting store. -/
theorem api_scan_mapActivity (f g : Bool → Bool) (store : Store)
    (payload : ScanPayload) (req : RequestInfo) (now : Nat) :
    api_scan (mapActivity f g store) payload req now =
      ((api_scan store payload req now).1,
       mapActivity f g (api_scan store payload req now).2) := by
  cases hpid : payload.pharmacy_public_id with
  | none => simp [api_scan, hpid]
  | some pid =>
    by_cases he : pid.isEmpty = true
    · simp [api_scan, hpid, he]
    · simp only [api_scan, hpid]
      rw [if_neg he, if_neg he, lookupPharmacy_mapActivity]
      cases hph : lookupPharmacy store pid with
      | none => rfl
      | some ph =>
        simp only [Option.map_some']
        rw [mkScan_mapActivity]
        rfl

/-- Claim C10: `api_scan` never consults is_active: transforming the
is_active flag of every pharmacy and region arbitrarily changes neither
the response nor the stored scan events, so a request for an inactive
pharmacy, or one whose linked region is inactive, succeeds and inserts
exactly the ScanEvent an all-active store would get. -/
theorem api_scan_ignores_is_active (f g : Bool → Bool) (store : Store)
    (payload : ScanPayload) (req : RequestInfo) (now : Nat) :
    (api_scan (mapActivity f g store) payload req now).1 =
      (api_scan store payload req now).1
    ∧ (api_scan (mapActivity f g store) payload req now).2.scan_events =
      (api_scan store payload req now).2.scan_events := by
  rw [api_scan_mapActivity]
  exact ⟨rfl, rfl⟩

end PickupScan
